import Mathlib

/-!
Verification development for the learning-thermostat engine.

The Python sources are embedded shallowly:

* `ml_core.py` (class `MLCore`): model lifecycle — load, train, predict —
  as explicit state passing over `MLCoreState`.
* `data_collector.py` (class `DataCollector`): snapshot encoding and the
  append-only CSV store, as pure functions over an explicit store value.
* `climate.py` (class `LearningThermostat`): the controller operations
  `async_set_temperature` and `_async_prediction_loop` as functions from the
  controller state plus the event's inputs to the new state and the emitted
  effects (store appends, actuator commands).

Numbers are embedded as `ℚ`; wall-clock instants as the structure `Instant`
below; fallible Python code as `Except PyExc`.
-/

namespace LearningThermostat

/-- The kinds of Python exceptions the embedded code can raise. -/
inductive PyExc where
  | attributeError
  | valueError
  | typeError
deriving DecidableEq, Repr

/-- One instant of wall-clock time.  `epoch` is the count of seconds since a
fixed origin and carries the total order used by `datetime` comparison and by
`datetime + timedelta` arithmetic; `hour`, `minute`, `second` are the local
clock fields that both `pandas.Timestamp` and `datetime.datetime` expose for
this instant; `weekdayMon0` is its calendar weekday with Monday = 0, the value
that both `pandas.Timestamp.dayofweek` and `datetime.weekday()` return. -/
structure Instant where
  epoch : Int
  hour : Nat
  minute : Nat
  second : Nat
  weekdayMon0 : Nat
deriving DecidableEq, Repr

/-- Integer attribute lookup on a Python `datetime.datetime` object, restricted
to the attribute names the prediction path reads.  `datetime.datetime` exposes
`hour`, `minute` and `second` as attributes; its weekday is available only
through the methods `weekday()` / `isoweekday()`, and there is no `dayofweek`
attribute (that accessor belongs to `pandas.Timestamp`), so looking `dayofweek`
up raises `AttributeError`. -/
def Instant.datetimeAttr (t : Instant) : String → Except PyExc Nat
  | "hour" => .ok t.hour
  | "minute" => .ok t.minute
  | "second" => .ok t.second
  | _ => .error PyExc.attributeError

/-- The `pandas` datetime accessor `.dt.dayofweek` used on the training path
(`ml_core.py` line 72): weekday with Monday = 0 through Sunday = 6. -/
def Instant.pandasDayofweek (t : Instant) : Nat := t.weekdayMon0

/-- Seconds elapsed since local midnight, `hour*3600 + minute*60 + second`
(the formula both paths use, `ml_core.py` lines 67 and 120). -/
def Instant.secondsFromMidnight (t : Instant) : Nat :=
  t.hour * 3600 + t.minute * 60 + t.second

/-- The derived time columns of one feature row.  `time_sin` and `time_cos`
are `sin`/`cos` of `2·π·s/86400` where `s = sinCosArg`: sine and cosine are
fixed functions applied to `s`, so the columns are represented by the argument
`s` together with the `day_of_week` column — two rows carry equal `time_sin`,
`time_cos`, `day_of_week` values exactly when these representations agree. -/
structure TimeFeatures where
  sinCosArg : Nat
  day_of_week : Nat
deriving DecidableEq, Repr

/-- The training-path time encoding (`ml_core.py` lines 63–72): seconds from
midnight of the record's stored timestamp, and `day_of_week` from the pandas
accessor `.dt.dayofweek`. -/
def trainTimeFeatures (t : Instant) : TimeFeatures :=
  { sinCosArg := t.secondsFromMidnight
    day_of_week := t.pandasDayofweek }

/-- The prediction-path time encoding (`ml_core.py` lines 118–124): seconds
from midnight of `now = datetime.now()`, and `day_of_week` from the attribute
expression `now.dayofweek` — an attribute `datetime.datetime` does not have,
so the lookup raises. -/
def predictTimeFeatures (now : Instant) : Except PyExc TimeFeatures :=
  match now.datetimeAttr "dayofweek" with
  | .error e => .error e
  | .ok dow => .ok { sinCosArg := now.hour * 3600 + now.minute * 60 + now.second
                     day_of_week := dow }

/-- Modelled from the spec: the single shared time encoding the specification
prescribes for both paths — cyclic encoding of seconds-since-midnight plus
`day_of_week`, "the calendar weekday index using one fixed convention, defined
once and reused identically for both training-time and predict-time
encoding". -/
def specTimeFeatures (t : Instant) : TimeFeatures :=
  { sinCosArg := t.secondsFromMidnight
    day_of_week := t.weekdayMon0 }

/-- One row of the training CSV seen as a training record: the stored
timestamp, the raw sensor feature columns (name, raw stored value) in file
order, and the `target_temperature` label. -/
structure TrainingRecord where
  timestamp : Instant
  features : List (String × String)
  target_temperature : ℚ
deriving DecidableEq, Repr

/-- One row of the design matrix `X`: the raw sensor columns plus the derived
time columns. -/
structure FeatureRow where
  sensors : List (String × String)
  time : TimeFeatures
deriving DecidableEq, Repr

/-- The column names of a one-row frame passed to `predict`: the sensor
feature names in insertion order followed by the three derived time columns
appended by the feature-engineering block. -/
def rowColumns (row : FeatureRow) : List String :=
  row.sensors.map Prod.fst ++ ["time_sin", "time_cos", "day_of_week"]

/-- The fitted pipeline artifact (`ml_core.py` lines 82–93).  The forest is
fitted with a fixed seed (`random_state=42`), so the fitted artifact is a
deterministic function of the design matrix and the labels; it is represented
by the column schema it was fitted on together with that data. -/
structure Model where
  columns : List String
  fitX : List FeatureRow
  fitY : List ℚ
deriving DecidableEq, Repr

/-- Fitting the pipeline on the training rows (`ml_core.py` lines 63–93):
`X` holds every sensor column (all rows share the CSV's fixed header) plus the
training-path time features of each row's stored timestamp, and `y` holds the
labels. -/
def fitModel (records : List TrainingRecord) : Model :=
  { columns := (match records with
      | [] => []
      | r :: _ => r.features.map Prod.fst) ++ ["time_sin", "time_cos", "day_of_week"]
    fitX := records.map fun r => ⟨r.features, trainTimeFeatures r.timestamp⟩
    fitY := records.map fun r => r.target_temperature }

/-- The mutable fields of `MLCore`: the live model reference `self.model` and
the flag `self.is_trained`. -/
structure MLCoreState where
  model : Option Model
  is_trained : Bool
deriving DecidableEq, Repr

/-- State set by `MLCore.__init__` before `_load_model` runs
(`ml_core.py` lines 25–26): `model = None`, `is_trained = False`. -/
def MLCoreState.initial : MLCoreState := ⟨none, false⟩

/-- The environment's answer to `_load_model`: the model file may be absent,
`joblib.load` may raise, or it yields a deserialized model. -/
inductive LoadOutcome where
  | fileMissing
  | loadError (e : PyExc)
  | loaded (m : Model)
deriving DecidableEq, Repr

/-- `MLCore._load_model` (`ml_core.py` lines 29–39): on a successful load the
model is installed and `is_trained` set; an absent file or a raising
`joblib.load` leaves both fields untouched (the assignment to `self.model`
never ran). -/
def loadModel (st : MLCoreState) : LoadOutcome → MLCoreState
  | .fileMissing => st
  | .loadError _ => st
  | .loaded m => { st with model := some m, is_trained := true }

/-- The environment's answer to reading the training CSV: the data file may be
absent, `pd.read_csv` may raise, or it yields the parsed rows. -/
inductive FileRead where
  | missing
  | readError (e : PyExc)
  | ok (rows : List TrainingRecord)
deriving DecidableEq, Repr

/-- `MLCore._train_model_sync` (`ml_core.py` lines 45–103).  Returns the new
state and the method's boolean result.  A missing file, a read error, or fewer
than 20 rows returns `False` with the state untouched (the insufficient-data
case, lines 59–61).  Otherwise the new pipeline is fitted and installed as
`self.model` (line 88); `joblib.dump` is then attempted, with success
(`persistOk = true`) setting `is_trained := true` and returning `True`, and
failure returning `False` with `is_trained` left as it was (lines 96–103). -/
def trainModelSync (st : MLCoreState) : FileRead → Bool → MLCoreState × Bool
  | .missing, _ => (st, false)
  | .readError _, _ => (st, false)
  | .ok rows, persistOk =>
    if rows.length < 20 then (st, false)
    else
      let st1 := { st with model := some (fitModel rows) }
      if persistOk then ({ st1 with is_trained := true }, true)
      else (st1, false)

/-- The `NotTrained` guard of `async_predict_temperature` (`ml_core.py`
line 107): `not self.is_trained or self.model is None`. -/
def notTrainedGuard (st : MLCoreState) : Bool :=
  !st.is_trained || st.model.isNone

/-- `sklearn` `Pipeline.predict` on a one-row frame (`ml_core.py` line 126).
The fitted `ColumnTransformer` selects its fitted columns by name and raises
when one is missing from the frame; the `OneHotEncoder` was configured with
`handle_unknown=ignore`, so unseen categorical values never raise.  On a
frame carrying every fitted column the pipeline returns one number — a pure
function of the fitted artifact and the row, abstracted here as the explicit
parameter `regress`. -/
def pipelinePredict (regress : Model → FeatureRow → ℚ) (m : Model) (row : FeatureRow) :
    Except PyExc ℚ :=
  if m.columns.all fun c => (rowColumns row).contains c then .ok (regress m row)
  else .error PyExc.valueError

/-- The body of `_predict_temperature_sync` inside the `try` block
(`ml_core.py` lines 116–128): build the one-row frame from `sensor_data`,
append the prediction-path time features of `now = datetime.now()` — which
raises at `now.dayofweek` — then call the pipeline. -/
def predictBody (regress : Model → FeatureRow → ℚ) (m : Model)
    (sensor_data : List (String × String)) (now : Instant) : Except PyExc ℚ :=
  match predictTimeFeatures now with
  | .error e => .error e
  | .ok tf => pipelinePredict regress m ⟨sensor_data, tf⟩

/-- `MLCore._predict_temperature_sync` (`ml_core.py` lines 113–131): the whole
body sits in `try: ... except Exception:`, so every exception the body raises
is caught and mapped to a `None` return; the `.ok` result type records that no
exception escapes to the caller. -/
def predictTemperatureSync (regress : Model → FeatureRow → ℚ) (m : Model)
    (sensor_data : List (String × String)) (now : Instant) : Except PyExc (Option ℚ) :=
  match predictBody regress m sensor_data now with
  | .ok v => .ok (some v)
  | .error _ => .ok none

/-- `MLCore.async_predict_temperature` (`ml_core.py` lines 105–111): `None`
when the `NotTrained` guard fires, otherwise the awaited result of the
synchronous prediction — whose exceptions, had any escaped the `try`, would
re-raise here. -/
def asyncPredictTemperature (regress : Model → FeatureRow → ℚ) (st : MLCoreState)
    (sensor_data : List (String × String)) (now : Instant) : Except PyExc (Option ℚ) :=
  if notTrainedGuard st then .ok none
  else
    match st.model with
    | none => .ok none
    | some m => predictTemperatureSync regress m sensor_data now

/-- A Home Assistant entity state as the embedded code reads it: the state
string (which may be the literal `"unavailable"` or `"unknown"`), and the
attributes the code looks up — `temperature` (the climate entity's target)
and `current_temperature` — each of which `attributes.get` may answer with
`None`. -/
structure HAState where
  state : String
  attr_temperature : Option ℚ
  attr_current_temperature : Option ℚ
deriving DecidableEq, Repr

/-- `utils.sanitize_entity_id_for_feature`: replaces every `.` with `_`. -/
def sanitize_entity_id_for_feature (entity_id : String) : String :=
  String.mk (entity_id.data.map fun c => if c = '.' then '_' else c)

/-- The snapshot-encoding loop shared by `climate._async_prediction_loop`
(lines 261–265) and `DataCollector.async_collect_data_point` (lines 85–88):
for each configured sensor entity, the feature column named by the sanitized
entity id holds `state.state if state else "unknown"` — the entity's reported
state string verbatim when the entity exists, the token `"unknown"` when the
registry has no such entity.  `states` is `hass.states.get`. -/
def buildSensorData (sensors : List String) (states : String → Option HAState) :
    List (String × String) :=
  sensors.map fun eid =>
    (sanitize_entity_id_for_feature eid,
     match states eid with
     | some s => s.state
     | none => "unknown")

/-- `DataCollector.async_collect_data_point` (`data_collector.py` lines
81–92): the data row it assembles — current timestamp, one column per sensor
encoded by the shared snapshot loop, and the label `target_temperature`. -/
def collectDataPoint (sensors : List String) (states : String → Option HAState)
    (target_temperature : ℚ) (now : Instant) : TrainingRecord :=
  { timestamp := now
    features := buildSensorData sensors states
    target_temperature := target_temperature }

/-- `DataCollector._write_to_csv` (`data_collector.py` lines 94–103): appends
the row when the write succeeds; an `IOError` (or any other exception) is
logged and swallowed, leaving the store as it was. -/
def writeToCsv (store : List TrainingRecord) (row : TrainingRecord) (ioRes : Bool) :
    List TrainingRecord :=
  if ioRes then store ++ [row] else store

/-- `async_collect_data_point` end to end: assemble the data row and hand it
to `_write_to_csv` on the executor. -/
def asyncCollectDataPoint (store : List TrainingRecord) (sensors : List String)
    (states : String → Option HAState) (target_temperature : ℚ) (now : Instant)
    (ioRes : Bool) : List TrainingRecord :=
  writeToCsv store (collectDataPoint sensors states target_temperature now) ioRes

/-- A state-change event for the target climate entity, as delivered to the
collector's listener: `event.data.get("old_state")` and
`event.data.get("new_state")`. -/
structure StateChangeEvent where
  old_state : Option HAState
  new_state : Option HAState
deriving DecidableEq, Repr

/-- `DataCollector._async_handle_initial_learning_state_change`
(`data_collector.py` lines 61–79): when both states are present, the new
target temperature attribute is not `None` and differs from the old one, the
handler schedules `async_collect_data_point(new_temp)` — returned here as the
label of the collected point; otherwise nothing is collected.  The handler
reads nothing but the event: in particular it has no access to the climate
entity's preset. -/
def handleTargetStateChange (e : StateChangeEvent) : Option ℚ :=
  match e.old_state, e.new_state with
  | none, _ => none
  | _, none => none
  | some os, some ns =>
    match ns.attr_temperature with
    | none => none
    | some v => if os.attr_temperature ≠ some v then some v else none

/-! ### The climate entity (`climate.py`) -/

def HVAC_MODE_OFF : String := "off"

def HVAC_MODE_AUTO : String := "auto"

def PRESET_CONTROLLING : String := "Controlling"

def PRESET_LEARNING_CONTROLLING : String := "Learning & Controlling"

/-- The mutable control fields of `LearningThermostat` that the embedded
operations read or write.  `override_end_time` stores the epoch of the
`datetime` kept in `self._override_end_time` (`None` until the first
override); datetime comparison and `datetime + timedelta` arithmetic act on
the epoch. -/
structure ThermostatState where
  target_temperature : ℚ
  hvac_mode : String
  preset_mode : String
  is_override_active : Bool
  override_end_time : Option Int
deriving DecidableEq, Repr

/-- The outcome of `async_set_temperature`: the new controller state, the new
store contents, and the temperatures forwarded to the actuator via
`_async_set_target_climate_temp`, in order. -/
structure SetTempResult where
  state : ThermostatState
  store : List TrainingRecord
  actuator_commands : List ℚ
deriving DecidableEq, Repr

/-- `LearningThermostat.async_set_temperature` (`climate.py` lines 201–222).
`temperature` is `kwargs.get(ATTR_TEMPERATURE)`: `None` returns at once with
nothing changed.  Otherwise the target is stored, the override is activated
until `now + override_duration` (the configured duration in seconds), a data
point labeled with the temperature is collected exactly when the preset is
`"Learning & Controlling"`, and the temperature is unconditionally forwarded
to the actuator. -/
def asyncSetTemperature (th : ThermostatState) (store : List TrainingRecord)
    (override_duration : Int) (temperature : Option ℚ) (sensors : List String)
    (states : String → Option HAState) (now : Instant) (ioRes : Bool) : SetTempResult :=
  match temperature with
  | none => ⟨th, store, []⟩
  | some v =>
    let th1 := { th with target_temperature := v
                         is_override_active := true
                         override_end_time := some (now.epoch + override_duration) }
    let store1 :=
      if th.preset_mode = PRESET_LEARNING_CONTROLLING then
        asyncCollectDataPoint store sensors states v now ioRes
      else store
    ⟨th1, store1, [v]⟩

/-- `round(x, 1)` on the predicted value (`climate.py` line 271).  Python
rounds half to even on floats; no claim depends on the value at an exact
half, so the usual round-half-up of `Mathlib`'s `round` stands in. -/
def roundTo1 (x : ℚ) : ℚ := (round (x * 10) : ℤ) / 10

/-- The outcome of one prediction tick: the new controller state, whether
`async_predict_temperature` was called this tick, and the temperatures
forwarded to the actuator. -/
structure TickResult where
  state : ThermostatState
  predicted : Bool
  actuator_commands : List ℚ
deriving DecidableEq, Repr

/-- The tail of `_async_prediction_loop` after the override check
(`climate.py` lines 261–276): encode the snapshot, await
`async_predict_temperature` (an exception escaping the await would propagate
out of the loop), and on a non-`None` prediction round it to one decimal,
store it as the new target and forward it to the actuator; on `None` log and
leave the prior target unchanged. -/
def predictionBody (regress : Model → FeatureRow → ℚ) (th : ThermostatState)
    (ml : MLCoreState) (sensors : List String) (states : String → Option HAState)
    (now : Instant) : Except PyExc TickResult :=
  match asyncPredictTemperature regress ml (buildSensorData sensors states) now with
  | .error e => .error e
  | .ok none => .ok ⟨th, true, []⟩
  | .ok (some p) =>
    .ok ⟨{ th with target_temperature := roundTo1 p }, true, [roundTo1 p]⟩

/-- `LearningThermostat._async_prediction_loop` (`climate.py` lines 249–276).
The tick returns at once unless the mode is `"auto"` and the core reports
`is_trained`.  With an active override: while `datetime.now()` is strictly
before the stored end time the tick is a no-op (no prediction, no actuator
command, state untouched); otherwise the override flag is cleared and the
tick falls through to the prediction body.  Comparing `datetime.now()`
against a `None` end time would raise `TypeError`, as in Python. -/
def predictionLoop (regress : Model → FeatureRow → ℚ) (th : ThermostatState)
    (ml : MLCoreState) (sensors : List String) (states : String → Option HAState)
    (now : Instant) : Except PyExc TickResult :=
  if th.hvac_mode ≠ HVAC_MODE_AUTO ∨ ml.is_trained = false then .ok ⟨th, false, []⟩
  else if th.is_override_active then
    match th.override_end_time with
    | none => .error PyExc.typeError
    | some endEpoch =>
      if now.epoch < endEpoch then .ok ⟨th, false, []⟩
      else predictionBody regress { th with is_override_active := false } ml sensors states now
  else predictionBody regress th ml sensors states now

/-- What the system as a whole does when a state-change event of the target
climate entity arrives: the `DataCollector`'s independent subscription runs
`_async_handle_initial_learning_state_change` and, when that collects, the
row is appended to the store.  The climate entity's control state `th` is
threaded through unchanged: the collector holds no reference to it, so the
store update is the same whatever `th.preset_mode` is. -/
def onTargetClimateChange (th : ThermostatState) (store : List TrainingRecord)
    (e : StateChangeEvent) (sensors : List String) (states : String → Option HAState)
    (now : Instant) (ioRes : Bool) : ThermostatState × List TrainingRecord :=
  match handleTargetStateChange e with
  | some v => (th, asyncCollectDataPoint store sensors states v now ioRes)
  | none => (th, store)

/-- The `MLCore` states the embedded program can put its model manager in:
the constructor's initial state, followed by any interleaving of `_load_model`
outcomes and `_train_model_sync` runs.  `async_predict_temperature` reads but
never writes the state, so it adds no constructor. -/
inductive Reachable : MLCoreState → Prop where
  | init : Reachable MLCoreState.initial
  | load {s} (o : LoadOutcome) : Reachable s → Reachable (loadModel s o)
  | train {s} (f : FileRead) (p : Bool) : Reachable s → Reachable (trainModelSync s f p).1

/-! ### Helper lemmas -/

/-- `datetime.datetime` has no `dayofweek` attribute: the lookup raises. -/
lemma datetimeAttr_dayofweek (t : Instant) :
    t.datetimeAttr "dayofweek" = .error PyExc.attributeError := rfl

/-- The prediction-path time encoding always raises `AttributeError` at
`now.dayofweek`. -/
lemma predictTimeFeatures_err (now : Instant) :
    predictTimeFeatures now = .error PyExc.attributeError := by
  simp [predictTimeFeatures, datetimeAttr_dayofweek]

/-- The body of `_predict_temperature_sync` raises before it can reach
`self.model.predict`. -/
lemma predictBody_err (regress : Model → FeatureRow → ℚ) (m : Model)
    (sensor_data : List (String × String)) (now : Instant) :
    predictBody regress m sensor_data now = .error PyExc.attributeError := by
  simp [predictBody, predictTimeFeatures_err]

/-- The `try/except` catches the body's exception: the synchronous prediction
returns `None` on every input. -/
lemma predictTemperatureSync_none (regress : Model → FeatureRow → ℚ) (m : Model)
    (sensor_data : List (String × String)) (now : Instant) :
    predictTemperatureSync regress m sensor_data now = .ok none := by
  simp [predictTemperatureSync, predictBody_err]

/-- `async_predict_temperature` returns `None` on every input: either the
`NotTrained` guard fires, or the synchronous body's exception is caught. -/
lemma asyncPredictTemperature_none (regress : Model → FeatureRow → ℚ) (st : MLCoreState)
    (sensor_data : List (String × String)) (now : Instant) :
    asyncPredictTemperature regress st sensor_data now = .ok none := by
  unfold asyncPredictTemperature
  split
  · rfl
  · cases st.model with
    | none => rfl
    | some m => exact predictTemperatureSync_none regress m sensor_data now

/-- The tail of the prediction tick after the override check: the prediction
is performed (`predicted = true`), comes back `None`, and the prior target is
left unchanged with no actuator command. -/
lemma predictionBody_eq (regress : Model → FeatureRow → ℚ) (th : ThermostatState)
    (ml : MLCoreState) (sensors : List String) (states : String → Option HAState)
    (now : Instant) :
    predictionBody regress th ml sensors states now = .ok ⟨th, true, []⟩ := by
  simp [predictionBody, asyncPredictTemperature_none]

/-! ### Concrete sample values used by witnesses and counterexamples -/

/-- A stand-in for the abstract estimator output. -/
def regress0 : Model → FeatureRow → ℚ := fun _ _ => 0

/-- A state registry with no entities. -/
def noStates : String → Option HAState := fun _ => none

/-- A sample instant: epoch second 1000, clock 10:30:00, a Monday. -/
def sampleInstant : Instant := ⟨1000, 10, 30, 0, 0⟩

/-- A sample training row. -/
def sampleRecord : TrainingRecord := ⟨sampleInstant, [("sensor_temp", "20")], 21⟩

/-- Twenty identical sample training rows. -/
def rows20 : List TrainingRecord := List.replicate 20 sampleRecord

/-- The model fitted on the twenty sample rows. -/
def sampleModel : Model := fitModel rows20

/-- A controller state in `auto` mode with the learning preset. -/
def thAuto : ThermostatState := ⟨21, HVAC_MODE_AUTO, PRESET_LEARNING_CONTROLLING, false, none⟩

/-- A controller state in `auto` mode with the plain `Controlling` preset. -/
def thControlling : ThermostatState := ⟨21, HVAC_MODE_AUTO, PRESET_CONTROLLING, false, none⟩

/-- A model-manager state holding a trained model. -/
def mlTrained : MLCoreState := ⟨some sampleModel, true⟩

/-- A tick instant 30 minutes after `sampleInstant`. -/
def tickInside : Instant := ⟨2800, 11, 0, 0, 0⟩

/-- A tick instant exactly 60 minutes after `sampleInstant`. -/
def tickAtExpiry : Instant := ⟨4600, 11, 30, 0, 0⟩

/-- A target-climate state-change event raising the target from 20 to 22. -/
def eventUp : StateChangeEvent :=
  ⟨some ⟨"heat", some 20, some 19⟩, some ⟨"heat", some 22, some 19⟩⟩

/-! ### Claim theorems -/

/-- C1: the claim says time-of-day and day-of-week encoding is one shared
function, with the training path and the prediction path computing equal
`time_sin`, `time_cos`, `day_of_week` at the same instant and one weekday
convention on both paths.  The code falsifies this at every instant: the
training path computes `day_of_week` with the pandas `.dt.dayofweek` accessor
and matches the spec's shared encoding, while the prediction path evaluates
`datetime.now().dayofweek` — an attribute the stdlib `datetime` object does
not have — so it raises `AttributeError` instead of producing any encoding,
and in particular never agrees with the training path. -/
theorem C1_time_encoding_paths_diverge (t : Instant) :
    trainTimeFeatures t = specTimeFeatures t ∧
    predictTimeFeatures t = .error PyExc.attributeError ∧
    predictTimeFeatures t ≠ .ok (trainTimeFeatures t) := by
  refine ⟨rfl, predictTimeFeatures_err t, ?_⟩
  simp [predictTimeFeatures_err t]

/-- C2: for every sequence of training records, `_train_model_sync` with
fewer than 20 records returns the failure result `False` with the state
untouched (no model swap, `is_trained` unchanged) — the insufficient-data
case — and with exactly 20 records (and the persistence step succeeding) it
returns `True` and sets `is_trained := true`, installing the fitted model. -/
theorem C2_train_record_threshold :
    (∀ (st : MLCoreState) (rows : List TrainingRecord) (persistOk : Bool),
        rows.length < 20 → trainModelSync st (.ok rows) persistOk = (st, false)) ∧
    (∀ (st : MLCoreState) (rows : List TrainingRecord),
        rows.length = 20 →
        trainModelSync st (.ok rows) true =
          ({ st with model := some (fitModel rows), is_trained := true }, true)) := by
  constructor
  · intro st rows persistOk h
    simp [trainModelSync, h]
  · intro st rows h
    simp [trainModelSync, h]

/-- Witness for C2 at concrete inputs: 19 records fail and leave the initial
state untouched; 20 records succeed and set the trained flag. -/
theorem C2_train_record_threshold_witness :
    trainModelSync MLCoreState.initial (.ok (List.replicate 19 sampleRecord)) true
      = (MLCoreState.initial, false) ∧
    trainModelSync MLCoreState.initial (.ok rows20) true
      = ({ MLCoreState.initial with model := some (fitModel rows20), is_trained := true },
         true) :=
  ⟨C2_train_record_threshold.1 MLCoreState.initial (List.replicate 19 sampleRecord) true
     (by simp),
   C2_train_record_threshold.2 MLCoreState.initial rows20 (by simp [rows20])⟩

/-- C3: for every input feature record — including any record carrying the
`"unknown"` sentinel in sensor columns — `async_predict_temperature` never
lets an exception escape: every call returns either a float or the explicit
`None` failure result (which is how the `NotTrained` guard and the caught
in-body exceptions, schema mismatches included, report failure). -/
theorem C3_predict_never_raises (regress : Model → FeatureRow → ℚ) (st : MLCoreState)
    (sensor_data : List (String × String)) (now : Instant) :
    asyncPredictTemperature regress st sensor_data now = .ok none ∨
    ∃ v : ℚ, asyncPredictTemperature regress st sensor_data now = .ok (some v) :=
  Or.inl (asyncPredictTemperature_none regress st sensor_data now)

/-- C8: for a fixed model and a fixed input record, any two calls to
`_predict_temperature_sync` return the identical value — even at different
wall-clock instants — so the result is a deterministic function of the model
and the record.  (In the current code every call takes the caught
`AttributeError` path and returns the same `None`.) -/
theorem C8_predict_deterministic (regress : Model → FeatureRow → ℚ) (m : Model)
    (sensor_data : List (String × String)) (now1 now2 : Instant) :
    predictTemperatureSync regress m sensor_data now1
      = predictTemperatureSync regress m sensor_data now2 := by
  rw [predictTemperatureSync_none, predictTemperatureSync_none]

/-- C10: invariant of `MLCore`, established by `__init__` and preserved by
`_load_model` and `_train_model_sync` (prediction never writes the state):
whenever `is_trained` is `true` the live model reference is not `None`, and
consequently the predict guard reduces to the negation of the flag alone —
it never observes `trained = true` with a null model. -/
theorem C10_trained_model_invariant (s : MLCoreState) (h : Reachable s) :
    (s.is_trained = true → s.model ≠ none) ∧ notTrainedGuard s = !s.is_trained := by
  have hinv : s.is_trained = true → s.model ≠ none := by
    induction h with
    | init => simp [MLCoreState.initial]
    | load o hs ih =>
      cases o with
      | fileMissing => exact ih
      | loadError e => exact ih
      | loaded m => simp [loadModel]
    | train f p hs ih =>
      cases f with
      | missing => exact ih
      | readError e => exact ih
      | ok rows =>
        by_cases hlen : rows.length < 20
        · simpa [trainModelSync, hlen] using ih
        · by_cases hp : p <;> simp [trainModelSync, hlen, hp]
  refine ⟨hinv, ?_⟩
  cases htr : s.is_trained with
  | false => simp [notTrainedGuard, htr]
  | true =>
    have := hinv htr
    cases hm : s.model with
    | none => exact absurd hm this
    | some m => simp [notTrainedGuard, htr, hm]

/-- Witness for C10: the invariant applied to the concrete reachable state
obtained by loading a model into the freshly constructed core. -/
theorem C10_trained_model_invariant_witness :
    ((loadModel MLCoreState.initial (.loaded sampleModel)).is_trained = true →
      (loadModel MLCoreState.initial (.loaded sampleModel)).model ≠ none) ∧
    notTrainedGuard (loadModel MLCoreState.initial (.loaded sampleModel))
      = !(loadModel MLCoreState.initial (.loaded sampleModel)).is_trained :=
  C10_trained_model_invariant _ (Reachable.load (.loaded sampleModel) Reachable.init)

/-- C7 counterexample: starting from the freshly constructed core (never
trained, nothing loaded), training on 20 records with the persistence step
failing returns the failure result and leaves the newly fitted model live in
`self.model` — but `is_trained` stays `false`, so the very next
`async_predict_temperature` takes the `NotTrained` guard and fails, contrary
to the claim that subsequent predict calls do not fail with `NotTrained`. -/
theorem C7_persist_failure_counterexample :
    trainModelSync MLCoreState.initial (.ok rows20) false
      = (⟨some (fitModel rows20), false⟩, false) ∧
    notTrainedGuard ⟨some (fitModel rows20), false⟩ = true ∧
    asyncPredictTemperature regress0 ⟨some (fitModel rows20), false⟩ [] sampleInstant
      = .ok none := by
  refine ⟨?_, rfl, rfl⟩
  simp [trainModelSync, rows20, MLCoreState.initial]

/-- C7 as amended: if `train` fits a model on at least 20 records but
persisting it fails, it returns a failure result while the newly built model
remains the live in-memory model; the trained flag is left unchanged, so a
subsequent predict call takes the `NotTrained` guard exactly when the flag
was not already `true` from an earlier successful train or load. -/
theorem C7_persist_failure_keeps_model_untrained (st : MLCoreState)
    (rows : List TrainingRecord) (h : ¬ rows.length < 20) :
    trainModelSync st (.ok rows) false
      = ({ st with model := some (fitModel rows) }, false) ∧
    notTrainedGuard { st with model := some (fitModel rows) } = !st.is_trained := by
  constructor
  · simp [trainModelSync, h]
  · simp [notTrainedGuard]

/-- Witness for the amended C7 at the concrete untrained initial state. -/
theorem C7_persist_failure_keeps_model_untrained_witness :
    trainModelSync MLCoreState.initial (.ok rows20) false
      = ({ MLCoreState.initial with model := some (fitModel rows20) }, false) ∧
    notTrainedGuard { MLCoreState.initial with model := some (fitModel rows20) }
      = !MLCoreState.initial.is_trained :=
  C7_persist_failure_keeps_model_untrained MLCoreState.initial rows20 (by simp [rows20])

/-- C4: with a 60-minute override duration (3600 seconds) and a manual
`setTemperature(v)` at `now` while in `auto` with a trained core, every tick
at an instant `tk` with `now ≤ tk < now + 60min` leaves the override active
and performs no prediction and no actuator command (the tick is a no-op on
the state), and every tick at `tk ≥ now + 60min` clears the override and
performs a prediction. -/
theorem C4_override_window (regress : Model → FeatureRow → ℚ) (th : ThermostatState)
    (ml : MLCoreState) (store : List TrainingRecord) (sensors sensors2 : List String)
    (states states2 : String → Option HAState) (now : Instant) (v : ℚ) (ioRes : Bool)
    (hmode : th.hvac_mode = HVAC_MODE_AUTO) (htr : ml.is_trained = true) :
    (∀ tk : Instant, now.epoch ≤ tk.epoch → tk.epoch < now.epoch + 3600 →
      predictionLoop regress
          (asyncSetTemperature th store 3600 (some v) sensors states now ioRes).state
          ml sensors2 states2 tk
        = .ok ⟨(asyncSetTemperature th store 3600 (some v) sensors states now ioRes).state,
               false, []⟩) ∧
    (∀ tk : Instant, now.epoch + 3600 ≤ tk.epoch →
      predictionLoop regress
          (asyncSetTemperature th store 3600 (some v) sensors states now ioRes).state
          ml sensors2 states2 tk
        = .ok ⟨{ (asyncSetTemperature th store 3600 (some v) sensors states now ioRes).state
                 with is_override_active := false }, true, []⟩) := by
  constructor
  · intro tk _ h2
    simp [asyncSetTemperature, predictionLoop, hmode, htr, h2]
  · intro tk h1
    simp [asyncSetTemperature, predictionLoop, hmode, htr, not_lt.mpr h1,
      predictionBody_eq]

/-- Witness for C4 at concrete inputs: override set at epoch 1000, a tick 30
minutes later is a no-op, and the tick exactly 60 minutes later clears the
override and performs a prediction. -/
theorem C4_override_window_witness :
    predictionLoop regress0
        (asyncSetTemperature thAuto [] 3600 (some 22) [] noStates sampleInstant true).state
        mlTrained [] noStates tickInside
      = .ok ⟨(asyncSetTemperature thAuto [] 3600 (some 22) [] noStates sampleInstant
              true).state, false, []⟩ ∧
    predictionLoop regress0
        (asyncSetTemperature thAuto [] 3600 (some 22) [] noStates sampleInstant true).state
        mlTrained [] noStates tickAtExpiry
      = .ok ⟨{ (asyncSetTemperature thAuto [] 3600 (some 22) [] noStates sampleInstant
               true).state with is_override_active := false }, true, []⟩ :=
  ⟨(C4_override_window regress0 thAuto mlTrained [] [] [] noStates noStates sampleInstant
      22 true rfl rfl).1 tickInside (by decide) (by decide),
   (C4_override_window regress0 thAuto mlTrained [] [] [] noStates noStates sampleInstant
      22 true rfl rfl).2 tickAtExpiry (by decide)⟩

/-- C5: for every value `v` and every current mode and preset, a manual
`async_set_temperature(v)` activates the override with expiry
`now + override_duration`, stores `v` as the target, appends one training
record labeled `v` to the store exactly when the preset is
`"Learning & Controlling"` (the CSV write succeeding), and in all cases
forwards `v` to the actuator. -/
theorem C5_set_temperature_effects (th : ThermostatState) (store : List TrainingRecord)
    (d : Int) (v : ℚ) (sensors : List String) (states : String → Option HAState)
    (now : Instant) :
    (asyncSetTemperature th store d (some v) sensors states now true).state.is_override_active
      = true ∧
    (asyncSetTemperature th store d (some v) sensors states now true).state.override_end_time
      = some (now.epoch + d) ∧
    (asyncSetTemperature th store d (some v) sensors states now true).state.target_temperature
      = v ∧
    (collectDataPoint sensors states v now).target_temperature = v ∧
    (asyncSetTemperature th store d (some v) sensors states now true).store
      = (if th.preset_mode = PRESET_LEARNING_CONTROLLING
         then store ++ [collectDataPoint sensors states v now] else store) ∧
    (asyncSetTemperature th store d (some v) sensors states now true).actuator_commands
      = [v] := by
  refine ⟨rfl, rfl, rfl, rfl, ?_, rfl⟩
  by_cases hp : th.preset_mode = PRESET_LEARNING_CONTROLLING <;>
    simp [asyncSetTemperature, asyncCollectDataPoint, writeToCsv, hp]

/-- C6 counterexample: with the preset `"Controlling"` — not
`"Learning & Controlling"` — an externally observed change of the actuator's
target temperature from 20 to 22 still appends a training record labeled 22
to the store, because the `DataCollector`'s subscription never consults the
preset; the claim says no record is appended in this case. -/
theorem C6_external_change_counterexample :
    thControlling.preset_mode = PRESET_CONTROLLING ∧
    thControlling.preset_mode ≠ PRESET_LEARNING_CONTROLLING ∧
    onTargetClimateChange thControlling [] eventUp [] noStates sampleInstant true
      = (thControlling, [⟨sampleInstant, [], 22⟩]) := by
  refine ⟨rfl, by decide, by rfl⟩

/-- C6 as amended: an externally observed change of the actuator's target
temperature appends one training record labeled with the new observed value
whenever both old and new states are present, the new target is non-null and
differs from the old, and the CSV write succeeds — regardless of the climate
entity's preset, since the collector's subscription is independent of it. -/
theorem C6_external_change_appends_regardless_of_preset (th : ThermostatState)
    (store : List TrainingRecord) (os ns : HAState) (v : ℚ) (sensors : List String)
    (states : String → Option HAState) (now : Instant)
    (hnew : ns.attr_temperature = some v) (hdiff : os.attr_temperature ≠ some v) :
    onTargetClimateChange th store ⟨some os, some ns⟩ sensors states now true
      = (th, store ++ [collectDataPoint sensors states v now]) := by
  simp [onTargetClimateChange, handleTargetStateChange, hnew, hdiff,
    asyncCollectDataPoint, writeToCsv]

/-- Witness for the amended C6 at the concrete event raising the target from
20 to 22 under the `"Controlling"` preset. -/
theorem C6_external_change_appends_witness :
    onTargetClimateChange thControlling [] eventUp [] noStates sampleInstant true
      = (thControlling, [] ++ [collectDataPoint [] noStates 22 sampleInstant]) :=
  C6_external_change_appends_regardless_of_preset thControlling []
    ⟨"heat", some 20, some 19⟩ ⟨"heat", some 22, some 19⟩ 22 [] noStates sampleInstant
    rfl (by decide)

/-- C9 counterexample: a sensor entity that exists and reports the state
`"unavailable"` is encoded verbatim as the string `"unavailable"`, not as the
fixed `"unknown"` token the claim requires for Unavailable states. -/
theorem C9_unavailable_counterexample :
    buildSensorData ["sensor.temp"] (fun _ => some ⟨"unavailable", none, none⟩)
      = [("sensor_temp", "unavailable")] ∧
    ("unavailable" : String) ≠ "unknown" := by
  exact ⟨rfl, by decide⟩

/-- C9 as amended: the snapshot encoding is total and never coerces a sensor
value to a number (every feature column holds a string); a sensor whose
entity is absent from the registry is encoded as the fixed `"unknown"` token,
while a present entity's reported state string is copied verbatim — so a
reported Unknown state yields the string `"unknown"` but a reported
Unavailable state yields the string `"unavailable"`, not the token. -/
theorem C9_snapshot_encoding (sensors : List String) (states : String → Option HAState)
    (eid : String) (h : eid ∈ sensors) :
    (states eid = none →
      (sanitize_entity_id_for_feature eid, "unknown") ∈ buildSensorData sensors states) ∧
    (∀ s : HAState, states eid = some s →
      (sanitize_entity_id_for_feature eid, s.state) ∈ buildSensorData sensors states) := by
  constructor
  · intro hn
    simp only [buildSensorData]
    exact List.mem_map.mpr ⟨eid, h, by simp [hn]⟩
  · intro s hs
    simp only [buildSensorData]
    exact List.mem_map.mpr ⟨eid, h, by simp [hs]⟩

/-- Witness for the amended C9: an absent entity's column holds `"unknown"`. -/
theorem C9_snapshot_encoding_witness :
    (sanitize_entity_id_for_feature "sensor.temp", "unknown")
      ∈ buildSensorData ["sensor.temp"] noStates :=
  (C9_snapshot_encoding ["sensor.temp"] noStates "sensor.temp" (by simp)).1 rfl

end LearningThermostat
